import Mathlib

/-! Relative dynamics of a decoupled 6D quadrotor tracking a planar 3D Dubins car

Shallow embedding of `quadrotor_decoupled_6d_rel_planar_dubins_3d.cpp`
(`fastrack::dynamics::QuadrotorDecoupled6DRelPlanarDubins3D`), with its two member
functions `Evaluate` and `OptimalControl`.

Modelling decisions:

* `double` is modelled by an arbitrary linearly ordered field `α` (exact arithmetic,
  no rounding, no NaN or infinities).  Theorems that use no property of the
  trigonometric functions are proved for all such `α` and all functions in place of
  `cos`, `sin`, `tan`, so they hold in particular for `ℝ`; theorems that need such a
  property (values at 0 and `π`, monotonicity of the tangent, `cos ^ 2 + sin ^ 2 = 1`) or
  a limit are stated over `ℝ` with `Real.cos`, `Real.sin`, `Real.tan`.  Division by zero,
  which yields `inf`/`NaN` in C++, yields `0` in a Lean field; the only division of the
  file is by the relative distance.
* `std::cos`, `std::sin`, `std::tan` (from `<math.h>`), the constant `constants::G`
  (from `types.h`) and the constructor of the relative state from the two absolute
  states (from `position_velocity_rel_planar_dubins_3d.h`) are not part of the source
  file.  They are collected in the record `Externals` and every function takes them as
  a parameter; for `ℝ` the intended instance is `Real.cos`, `Real.sin`, `Real.tan`.
* `ControlBound<C>` is an abstract class declared in a missing header; it is modelled by
  a record of its two virtual methods.
* `std::unique_ptr` ownership of the returned derivative is dropped: `Evaluate` returns
  the value itself.
-/

namespace fastrack

/-- Tracker state `state::PositionVelocity`: position and velocity in three dimensions.
The fields are named after the accessors of the class. -/
structure PositionVelocity (α : Type) where
  X : α
  Y : α
  Z : α
  Vx : α
  Vy : α
  Vz : α

/-- Planner state `state::PlanarDubins3D`: planar position, heading, height, forward
speed and vertical speed.  The fields are named after the accessors of the class. -/
structure PlanarDubins3D (α : Type) where
  X : α
  Y : α
  Theta : α
  Z : α
  V : α
  Vz : α

/-- Tracker control `control::QuadrotorControl` (a plain struct with four public
members). -/
structure QuadrotorControl (α : Type) where
  pitch : α
  roll : α
  yaw_rate : α
  thrust : α

/-- Relative state `state::PositionVelocityRelPlanarDubins3D`; the same shape is used for
the relative state, its time derivative and the gradient of the value function.  The
record constructor is the four-scalar constructor of the class. -/
structure PositionVelocityRelPlanarDubins3D (α : Type) where
  Distance : α
  Bearing : α
  TangentVelocity : α
  NormalVelocity : α

/-- Modelled from the spec: the abstract class `ControlBound<C>`, whose header is missing.
A control bound is a set of feasible control values (`Contains`) together with the
capability `ProjectToSurface`, which maps an unconstrained direction to a feasible
control value. -/
structure ControlBound (C : Type) where
  Contains : C → Bool
  ProjectToSurface : C → C

/-- What the source file takes from elsewhere: the gravitational constant `constants::G`,
the three functions of `<math.h>` it calls, and the constructor of the relative state
from a tracker state and a planner state. -/
structure Externals (α : Type) where
  G : α
  cos : α → α
  sin : α → α
  tan : α → α
  relative : PositionVelocity α → PlanarDubins3D α → PositionVelocityRelPlanarDubins3D α

namespace QuadrotorDecoupled6DRelPlanarDubins3D

variable {α : Type} [LinearOrderedField α]

/-- Time derivative of the relative state as a function of the states and controls of the
two systems (`Evaluate`, lines 68-114 of the source). -/
def Evaluate (e : Externals α) (tracker_x : PositionVelocity α)
    (tracker_u : QuadrotorControl α) (planner_x : PlanarDubins3D α) (planner_u : α) :
    PositionVelocityRelPlanarDubins3D α :=
  -- Compute relative state.
  let relative_x := e.relative tracker_x planner_x
  -- Net instantaneous tangent velocity (PositionVelocity minus Dubins).
  let net_tangent_velocity := relative_x.TangentVelocity - planner_x.V
  -- Relative distance derivative.
  let distance_dot :=
    net_tangent_velocity * e.cos relative_x.Bearing +
      relative_x.NormalVelocity * e.sin relative_x.Bearing
  -- Relative bearing derivative.
  let bearing_dot :=
    -planner_u +
      (-net_tangent_velocity * e.sin relative_x.Bearing +
        relative_x.NormalVelocity * e.cos relative_x.Bearing) /
        relative_x.Distance
  -- Tracker accelerations expressed in inertial world frame.
  let tracker_accel_x := e.G * e.tan tracker_u.pitch
  let tracker_accel_y := -e.G * e.tan tracker_u.roll
  -- Relative tangent and normal velocity derivatives.
  let c := e.cos planner_x.Theta
  let s := e.sin planner_x.Theta
  let tangent_velocity_dot :=
    tracker_accel_x * c + tracker_accel_y * s + planner_u * relative_x.NormalVelocity
  let normal_velocity_dot :=
    -tracker_accel_x * s + tracker_accel_y * c - planner_u * relative_x.TangentVelocity
  { Distance := distance_dot
    Bearing := bearing_dot
    TangentVelocity := tangent_velocity_dot
    NormalVelocity := normal_velocity_dot }

/-- The local variable `negative_grad` of `OptimalControl` (lines 126-139 of the source):
the gradient translated into (negative) control-affine terms for pitch and roll, which
is the direction handed to `ProjectToSurface`. -/
def negative_grad (e : Externals α) (planner_x : PlanarDubins3D α)
    (value_gradient : PositionVelocityRelPlanarDubins3D α) : QuadrotorControl α :=
  let grad := value_gradient
  let c := e.cos planner_x.Theta
  let s := e.sin planner_x.Theta
  { pitch := -(grad.TangentVelocity * c - grad.NormalVelocity * s)
    roll := -(-grad.TangentVelocity * s - grad.NormalVelocity * c)
    thrust := 0.0
    yaw_rate := 0.0 }

/-- Optimal tracker control given the gradient of the value function at the relative
state and the control bounds (`OptimalControl`, lines 119-153 of the source). -/
def OptimalControl (e : Externals α) (tracker_x : PositionVelocity α)
    (planner_x : PlanarDubins3D α) (value_gradient : PositionVelocityRelPlanarDubins3D α)
    (tracker_u_bound : ControlBound (QuadrotorControl α))
    (_planner_u_bound : ControlBound α) : QuadrotorControl α :=
  -- Project onto tracker control bound and make sure to zero out yaw_rate.
  let u := tracker_u_bound.ProjectToSurface (negative_grad e planner_x value_gradient)
  -- Adjust non-bang-bang control inputs.
  let u := { u with yaw_rate := 0.0 }
  let k_p : α := 1.5
  let k_d : α := 1.0
  { u with
    thrust := e.G + k_p * (planner_x.Z - tracker_x.Z) + k_d * (planner_x.Vz - tracker_x.Vz) }

end QuadrotorDecoupled6DRelPlanarDubins3D

/-! ## Constructor of the relative state -/

section RelativeState

variable {α : Type} [LinearOrderedField α]

/-- Modelled from the spec: the constructor of the relative state from a tracker state and
a planner state, whose source file is missing.  The distance is the Euclidean separation
in the horizontal plane, the bearing is the signed angle of the tracker position in the
frame aligned with the planner heading, the tangential velocity is the component of the
horizontal tracker velocity along the planner heading axis and the normal velocity its
component perpendicular to that axis.  The functions `sqrt`, `atan2`, `cos` and `sin`
stand for those of `<math.h>`. -/
def PositionVelocityRelPlanarDubins3D.ofStates (sqrt : α → α) (atan2 : α → α → α)
    (cos sin : α → α) (tracker_x : PositionVelocity α) (planner_x : PlanarDubins3D α) :
    PositionVelocityRelPlanarDubins3D α :=
  let dx := tracker_x.X - planner_x.X
  let dy := tracker_x.Y - planner_x.Y
  let c := cos planner_x.Theta
  let s := sin planner_x.Theta
  { Distance := sqrt (dx * dx + dy * dy)
    Bearing := atan2 dy dx - planner_x.Theta
    TangentVelocity := tracker_x.Vx * c + tracker_x.Vy * s
    NormalVelocity := -tracker_x.Vx * s + tracker_x.Vy * c }

end RelativeState

/-! ## Sample control bounds

Concrete bounds for the concrete instances below.  They are inputs chosen for the
examples, not part of the embedded source file. -/

section Samples

variable {α : Type} [LinearOrderedField α]

/-- Sample tracker control bound: the box between the corners `u_min` and `u_max`.  The
projection picks, in every coordinate, the upper limit when the direction is
non-negative there and the lower limit otherwise. -/
def boxBound (u_min u_max : QuadrotorControl α) : ControlBound (QuadrotorControl α) where
  Contains q :=
    decide (u_min.pitch ≤ q.pitch ∧ q.pitch ≤ u_max.pitch) &&
    decide (u_min.roll ≤ q.roll ∧ q.roll ≤ u_max.roll) &&
    decide (u_min.yaw_rate ≤ q.yaw_rate ∧ q.yaw_rate ≤ u_max.yaw_rate) &&
    decide (u_min.thrust ≤ q.thrust ∧ q.thrust ≤ u_max.thrust)
  ProjectToSurface q :=
    { pitch := if 0 ≤ q.pitch then u_max.pitch else u_min.pitch
      roll := if 0 ≤ q.roll then u_max.roll else u_min.roll
      yaw_rate := if 0 ≤ q.yaw_rate then u_max.yaw_rate else u_min.yaw_rate
      thrust := if 0 ≤ q.thrust then u_max.thrust else u_min.thrust }

/-- Sample tracker control bound that constrains pitch and roll only: the square
`|pitch| ≤ m`, `|roll| ≤ m`, any thrust and yaw rate.  The projection picks a corner of
the square and keeps the thrust and yaw rate of the direction. -/
def pitchRollBound (m : α) : ControlBound (QuadrotorControl α) where
  Contains q := decide (|q.pitch| ≤ m) && decide (|q.roll| ≤ m)
  ProjectToSurface q :=
    { q with
      pitch := if 0 ≤ q.pitch then m else -m
      roll := if 0 ≤ q.roll then m else -m }

/-- Sample planner control bound: the interval of turning rates `[-w, w]`. -/
def turningRateBound (w : α) : ControlBound α where
  Contains q := decide (|q| ≤ w)
  ProjectToSurface q := if 0 ≤ q then w else -w

end Samples

end fastrack

/-! ## Theorems -/

namespace fastrack

open QuadrotorDecoupled6DRelPlanarDubins3D

section Lemmas

variable {α : Type} [LinearOrderedField α]

/-- The literal `0.0` of the source is the zero of the field. -/
theorem zero_literal : (0.0 : α) = 0 := by norm_num

/-- The projection of the sample box bound returns members of the box, as soon as the
box is not empty. -/
theorem boxBound_project_contains (u_min u_max : QuadrotorControl α)
    (hp : u_min.pitch ≤ u_max.pitch) (hr : u_min.roll ≤ u_max.roll)
    (hy : u_min.yaw_rate ≤ u_max.yaw_rate) (ht : u_min.thrust ≤ u_max.thrust)
    (q : QuadrotorControl α) :
    (boxBound u_min u_max).Contains ((boxBound u_min u_max).ProjectToSurface q) = true := by
  simp only [boxBound, Bool.and_eq_true, decide_eq_true_eq]
  refine ⟨⟨⟨?_, ?_⟩, ?_⟩, ?_⟩ <;> split_ifs <;> simp [*]

/-- The projection of the sample pitch/roll bound returns members of it. -/
theorem pitchRollBound_project_contains (m : α) (hm : 0 ≤ m) (q : QuadrotorControl α) :
    (pitchRollBound m).Contains ((pitchRollBound m).ProjectToSurface q) = true := by
  simp only [pitchRollBound, Bool.and_eq_true, decide_eq_true_eq]
  constructor <;> split_ifs <;> simp [abs_of_nonneg hm]

/-- Membership in the sample pitch/roll bound depends on pitch and roll only. -/
theorem pitchRollBound_contains_congr (m : α) (u v : QuadrotorControl α)
    (hp : u.pitch = v.pitch) (hr : u.roll = v.roll) :
    (pitchRollBound m).Contains u = (pitchRollBound m).Contains v := by
  simp only [pitchRollBound, hp, hr]

/-- Transpose of a two-by-two matrix, entry by entry. -/
theorem transpose_fin_two {β : Type} (a b c d : β) :
    Matrix.transpose !![a, b; c, d] = !![a, c; b, d] := by
  ext i j
  fin_cases i <;> fin_cases j <;> rfl

/-- The modelled constructor of the relative state at the worked example of the
specification, with the real square root, the real cosine and sine, and `atan2 y x` the
argument of the complex number `x + y i`: the tracker at the origin with velocity
`(1, 0)` and the planner at `(1, 0)` with heading 0 have relative distance 1, bearing
`π`, tangential velocity 1 and normal velocity 0. -/
theorem ofStates_worked_example (z : ℝ) :
    PositionVelocityRelPlanarDubins3D.ofStates Real.sqrt (fun y x => Complex.arg ⟨x, y⟩)
        Real.cos Real.sin
        { X := 0, Y := 0, Z := 0, Vx := 1, Vy := 0, Vz := 0 }
        { X := 1, Y := 0, Theta := 0, Z := z, V := 0, Vz := 0 } =
      { Distance := 1, Bearing := Real.pi, TangentVelocity := 1, NormalVelocity := 0 } := by
  have harg : Complex.arg ⟨0 - 1, 0 - 0⟩ = Real.pi := by
    have hc : (⟨0 - 1, 0 - 0⟩ : ℂ) = -1 := by
      apply Complex.ext <;> simp
    rw [hc, Complex.arg_neg_one]
  simp only [PositionVelocityRelPlanarDubins3D.ofStates, harg]
  norm_num

/-- One coordinate of the bang-bang argument: if `q` maximises `c * p` over `|p| ≤ P`,
with `P < π / 2`, then it also maximises `c * tan p` there, because the tangent is
monotone on `(-π / 2, π / 2)`. -/
theorem tan_coordinate_maximal (P c q : ℝ) (hP : P < Real.pi / 2) (hq : |q| ≤ P)
    (hmax : ∀ p : ℝ, |p| ≤ P → c * p ≤ c * q) (p : ℝ) (hp : |p| ≤ P) :
    c * Real.tan p ≤ c * Real.tan q := by
  have hP0 : 0 ≤ P := le_trans (abs_nonneg q) hq
  have hmem : ∀ x : ℝ, |x| ≤ P → x ∈ Set.Ioo (-(Real.pi / 2)) (Real.pi / 2) := by
    intro x hx
    have := abs_le.1 hx
    exact ⟨by linarith, by linarith⟩
  have hmono := Real.strictMonoOn_tan.monotoneOn
  rcases lt_trichotomy c 0 with hc | hc | hc
  · have h1 : c * (-P) ≤ c * q := hmax (-P) (by rw [abs_neg, abs_of_nonneg hP0])
    have hq1 : q ≤ -P := (mul_le_mul_left_of_neg hc).1 h1
    have hqp : q ≤ p := le_trans hq1 (abs_le.1 hp).1
    exact mul_le_mul_of_nonpos_left (hmono (hmem q hq) (hmem p hp) hqp) hc.le
  · simp [hc]
  · have h1 : c * P ≤ c * q := hmax P (by rw [abs_of_nonneg hP0])
    have hq1 : P ≤ q := le_of_mul_le_mul_left h1 hc
    have hpq : p ≤ q := le_trans (abs_le.1 hp).2 hq1
    exact mul_le_mul_of_nonneg_left (hmono (hmem p hp) (hmem q hq) hpq) hc.le

/-- The projection of the sample pitch/roll bound lies in the square and maximises the
alignment `d.pitch * p + d.roll * r` over the square. -/
theorem pitchRollBound_project_maximal (m : α) (hm : 0 ≤ m) (d : QuadrotorControl α) :
    |((pitchRollBound m).ProjectToSurface d).pitch| ≤ m ∧
      |((pitchRollBound m).ProjectToSurface d).roll| ≤ m ∧
      ∀ p r : α, |p| ≤ m → |r| ≤ m →
        d.pitch * p + d.roll * r ≤
          d.pitch * ((pitchRollBound m).ProjectToSurface d).pitch +
            d.roll * ((pitchRollBound m).ProjectToSurface d).roll := by
  have hcoord : ∀ c p : α, |p| ≤ m → c * p ≤ c * (if 0 ≤ c then m else -m) := by
    intro c p hp
    split_ifs with hc
    · exact mul_le_mul_of_nonneg_left (abs_le.1 hp).2 hc
    · exact mul_le_mul_of_nonpos_left (abs_le.1 hp).1 (not_le.1 hc).le
  refine ⟨?_, ?_, fun p r hp hr => ?_⟩
  · simp only [pitchRollBound]
    split_ifs <;> simp [abs_of_nonneg hm]
  · simp only [pitchRollBound]
    split_ifs <;> simp [abs_of_nonneg hm]
  · simp only [pitchRollBound]
    exact add_le_add (hcoord _ p hp) (hcoord _ r hr)

end Lemmas

section Claims

variable {α : Type} [LinearOrderedField α]

/-- C1: for every tracker state, tracker control, planner state and planner turning rate,
the distance-rate component returned by `Evaluate` equals
`(vt - V) * cos b + vn * sin b`, where `b`, `vt`, `vn` are the bearing, tangential
velocity and normal velocity of the relative state built from the two absolute states
and `V` is the planner forward speed. -/
theorem Evaluate_distance_dot (e : Externals α) (tracker_x : PositionVelocity α)
    (tracker_u : QuadrotorControl α) (planner_x : PlanarDubins3D α) (planner_u : α) :
    (Evaluate e tracker_x tracker_u planner_x planner_u).Distance =
      ((e.relative tracker_x planner_x).TangentVelocity - planner_x.V) *
          e.cos (e.relative tracker_x planner_x).Bearing +
        (e.relative tracker_x planner_x).NormalVelocity *
          e.sin (e.relative tracker_x planner_x).Bearing := by
  simp only [Evaluate]

/-- C2: for every input whose relative distance `d` is strictly positive, the bearing-rate
component returned by `Evaluate` equals `-w + (-(vt - V) * sin b + vn * cos b) / d`,
where `w` is the planner turning rate, `V` the planner forward speed and
`(d, b, vt, vn)` the relative state. -/
theorem Evaluate_bearing_dot (e : Externals α) (tracker_x : PositionVelocity α)
    (tracker_u : QuadrotorControl α) (planner_x : PlanarDubins3D α) (planner_u : α)
    (_hd : 0 < (e.relative tracker_x planner_x).Distance) :
    (Evaluate e tracker_x tracker_u planner_x planner_u).Bearing =
      -planner_u +
        (-((e.relative tracker_x planner_x).TangentVelocity - planner_x.V) *
            e.sin (e.relative tracker_x planner_x).Bearing +
          (e.relative tracker_x planner_x).NormalVelocity *
            e.cos (e.relative tracker_x planner_x).Bearing) /
          (e.relative tracker_x planner_x).Distance := by
  simp only [Evaluate]

/-- Witness of C2 over the reals with the real trigonometric functions: the tracker is two
units ahead of the planner (distance 2, bearing 0) and moves with velocity `(3, 1)`, the
planner moves forward with speed 1 and turns with rate `1 / 2`; the bearing rate is
`-(1 / 2) + (-(3 - 1) * sin 0 + 1 * cos 0) / 2 = 0`. -/
theorem Evaluate_bearing_dot_witness :
    (0 : ℝ) < 2 ∧
      (Evaluate ⟨9.81, Real.cos, Real.sin, Real.tan, fun _ _ => ⟨2, 0, 3, 1⟩⟩
        ⟨2, 0, 0, 3, 1, 0⟩ ⟨0, 0, 0, 0⟩ ⟨0, 0, 0, 0, 1, 0⟩ (1 / 2)).Bearing = 0 := by
  refine ⟨by norm_num, ?_⟩
  rw [Evaluate_bearing_dot _ _ _ _ _ (by norm_num)]
  norm_num

/-- C3: for every input, with `ax = G * tan pitch`, `ay = -G * tan roll` and `theta` the
planner heading, `Evaluate` returns the tangential-velocity rate
`ax * cos theta + ay * sin theta + w * vn` and the normal-velocity rate
`-ax * sin theta + ay * cos theta - w * vt`, where `w` is the planner turning rate and
`vt`, `vn` are the relative tangential and normal velocities. -/
theorem Evaluate_velocity_dot (e : Externals α) (tracker_x : PositionVelocity α)
    (tracker_u : QuadrotorControl α) (planner_x : PlanarDubins3D α) (planner_u : α) :
    (Evaluate e tracker_x tracker_u planner_x planner_u).TangentVelocity =
        e.G * e.tan tracker_u.pitch * e.cos planner_x.Theta +
          -e.G * e.tan tracker_u.roll * e.sin planner_x.Theta +
          planner_u * (e.relative tracker_x planner_x).NormalVelocity ∧
      (Evaluate e tracker_x tracker_u planner_x planner_u).NormalVelocity =
        -(e.G * e.tan tracker_u.pitch) * e.sin planner_x.Theta +
          -e.G * e.tan tracker_u.roll * e.cos planner_x.Theta -
          planner_u * (e.relative tracker_x planner_x).TangentVelocity := by
  simp only [Evaluate, and_self]

/-- C4: for every tracker state, planner state and gradient, and for every
`ProjectToSurface` function of the tracker bound, the thrust of the command returned by
`OptimalControl` equals
`G + 1.5 * (planner z - tracker z) + 1.0 * (planner vertical speed - tracker vertical speed)`. -/
theorem OptimalControl_thrust (e : Externals α) (tracker_x : PositionVelocity α)
    (planner_x : PlanarDubins3D α) (value_gradient : PositionVelocityRelPlanarDubins3D α)
    (tracker_u_bound : ControlBound (QuadrotorControl α))
    (planner_u_bound : ControlBound α) :
    (OptimalControl e tracker_x planner_x value_gradient tracker_u_bound
        planner_u_bound).thrust =
      e.G + 1.5 * (planner_x.Z - tracker_x.Z) + 1.0 * (planner_x.Vz - tracker_x.Vz) := by
  simp only [OptimalControl]

/-- C5: for every input and for every `ProjectToSurface` function of the tracker bound
(whatever yaw rate it returns), the yaw rate of the command returned by `OptimalControl`
is exactly zero. -/
theorem OptimalControl_yaw_rate (e : Externals α) (tracker_x : PositionVelocity α)
    (planner_x : PlanarDubins3D α) (value_gradient : PositionVelocityRelPlanarDubins3D α)
    (tracker_u_bound : ControlBound (QuadrotorControl α))
    (planner_u_bound : ControlBound α) :
    (OptimalControl e tracker_x planner_x value_gradient tracker_u_bound
        planner_u_bound).yaw_rate = 0 := by
  simp only [OptimalControl, zero_literal]

/-- C6: for every planner heading `theta` and gradient with tangential- and
normal-velocity components `gt`, `gn`, the direction that `OptimalControl` passes to
`ProjectToSurface` has `pitch = -(gt * cos theta - gn * sin theta)`,
`roll = gt * sin theta + gn * cos theta`, `thrust = 0` and `yaw_rate = 0`; that is, the
negated gradient `(-gt, -gn)` rotated by the transpose of the rotation that `Evaluate`
applies to the accelerations, with the sign of the roll flipped to match
`accel_y = -G * tan roll`.  The transpose is the inverse of that rotation as soon as
`cos theta ^ 2 + sin theta ^ 2 = 1`. -/
theorem OptimalControl_direction (e : Externals α) (planner_x : PlanarDubins3D α)
    (value_gradient : PositionVelocityRelPlanarDubins3D α) :
    negative_grad e planner_x value_gradient =
        { pitch := -(value_gradient.TangentVelocity * e.cos planner_x.Theta -
            value_gradient.NormalVelocity * e.sin planner_x.Theta)
          roll := value_gradient.TangentVelocity * e.sin planner_x.Theta +
            value_gradient.NormalVelocity * e.cos planner_x.Theta
          thrust := 0
          yaw_rate := 0 } ∧
      (∀ (tracker_x : PositionVelocity α) (tracker_u_bound : ControlBound (QuadrotorControl α))
          (planner_u_bound : ControlBound α),
        OptimalControl e tracker_x planner_x value_gradient tracker_u_bound planner_u_bound =
          { tracker_u_bound.ProjectToSurface
              { pitch := -(value_gradient.TangentVelocity * e.cos planner_x.Theta -
                  value_gradient.NormalVelocity * e.sin planner_x.Theta)
                roll := value_gradient.TangentVelocity * e.sin planner_x.Theta +
                  value_gradient.NormalVelocity * e.cos planner_x.Theta
                thrust := 0
                yaw_rate := 0 } with
            yaw_rate := 0
            thrust := e.G + 1.5 * (planner_x.Z - tracker_x.Z) +
              1.0 * (planner_x.Vz - tracker_x.Vz) }) ∧
      ![(negative_grad e planner_x value_gradient).pitch,
          -(negative_grad e planner_x value_gradient).roll] =
        Matrix.mulVec
          (Matrix.transpose
            !![e.cos planner_x.Theta, e.sin planner_x.Theta;
               -e.sin planner_x.Theta, e.cos planner_x.Theta])
          ![-value_gradient.TangentVelocity, -value_gradient.NormalVelocity] ∧
      (∀ (tracker_x : PositionVelocity α) (tracker_u : QuadrotorControl α) (planner_u : α),
        ![(Evaluate e tracker_x tracker_u planner_x planner_u).TangentVelocity,
            (Evaluate e tracker_x tracker_u planner_x planner_u).NormalVelocity] =
          Matrix.mulVec
              !![e.cos planner_x.Theta, e.sin planner_x.Theta;
                 -e.sin planner_x.Theta, e.cos planner_x.Theta]
              ![e.G * e.tan tracker_u.pitch, -e.G * e.tan tracker_u.roll] +
            planner_u • ![(e.relative tracker_x planner_x).NormalVelocity,
              -(e.relative tracker_x planner_x).TangentVelocity]) ∧
      (e.cos planner_x.Theta ^ 2 + e.sin planner_x.Theta ^ 2 = 1 →
        Matrix.transpose
            !![e.cos planner_x.Theta, e.sin planner_x.Theta;
               -e.sin planner_x.Theta, e.cos planner_x.Theta] *
          !![e.cos planner_x.Theta, e.sin planner_x.Theta;
             -e.sin planner_x.Theta, e.cos planner_x.Theta] = 1) := by
  have hdir : negative_grad e planner_x value_gradient =
        { pitch := -(value_gradient.TangentVelocity * e.cos planner_x.Theta -
            value_gradient.NormalVelocity * e.sin planner_x.Theta)
          roll := value_gradient.TangentVelocity * e.sin planner_x.Theta +
            value_gradient.NormalVelocity * e.cos planner_x.Theta
          thrust := 0
          yaw_rate := 0 } := by
    simp only [negative_grad, zero_literal, QuadrotorControl.mk.injEq, and_true, true_and]
    ring
  refine ⟨hdir, ?_, ?_, ?_, ?_⟩
  · intro tracker_x tracker_u_bound planner_u_bound
    rw [← hdir]
    simp only [OptimalControl, zero_literal]
  · rw [hdir]
    ext i
    fin_cases i <;> simp [Matrix.mulVec, Matrix.dotProduct, Fin.sum_univ_two] <;> ring
  · intro tracker_x tracker_u planner_u
    ext i
    fin_cases i
    · simp [Evaluate, Matrix.mulVec, Matrix.dotProduct, Fin.sum_univ_two]
    · simp [Evaluate, Matrix.mulVec, Matrix.dotProduct, Fin.sum_univ_two]
      ring
  · intro h
    rw [transpose_fin_two, Matrix.mul_fin_two, Matrix.one_fin_two]
    ext i j
    fin_cases i <;> fin_cases j <;> simp <;> first | linear_combination h | ring

/-- Instance of C6 over the reals with the real cosine and sine, at planner heading 1: the
rotation that `Evaluate` applies is orthogonal, so its transpose, which `OptimalControl`
applies to the negated gradient, is its inverse. -/
theorem OptimalControl_direction_witness :
    Matrix.transpose !![Real.cos 1, Real.sin 1; -Real.sin 1, Real.cos 1] *
        !![Real.cos 1, Real.sin 1; -Real.sin 1, Real.cos 1] = 1 :=
  (OptimalControl_direction ⟨9.81, Real.cos, Real.sin, Real.tan, fun _ _ => ⟨2, 0, 3, 1⟩⟩
    ⟨0, 0, 1, 0, 1, 0⟩ ⟨0, 0, 1, 1⟩).2.2.2.2 (Real.cos_sq_add_sin_sq 1)

/-- C7, as stated, fails: over the reals, with `G = 9.81`, the tracker at height 0 and the
planner at height 10, and the sample box bound with thrust limits `[0, 15]`, every
control returned by `ProjectToSurface` is a member of the bound, but the command returned
by `OptimalControl` has thrust `9.81 + 1.5 * 10 = 24.81` and is not a member. -/
theorem OptimalControl_feasible_counterexample :
    (∀ q : QuadrotorControl ℝ,
        (boxBound ⟨-0.1, -0.1, -1, 0⟩ ⟨0.1, 0.1, 1, 15⟩).Contains
          ((boxBound ⟨-0.1, -0.1, -1, 0⟩ ⟨0.1, 0.1, 1, 15⟩).ProjectToSurface q) = true) ∧
      -- the corners of the box are given as (pitch, roll, yaw_rate, thrust)
      (boxBound (⟨-0.1, -0.1, -1, 0⟩ : QuadrotorControl ℝ) ⟨0.1, 0.1, 1, 15⟩).Contains
          (OptimalControl
            { G := 9.81, cos := Real.cos, sin := Real.sin, tan := Real.tan,
              relative := fun _ _ => ⟨1, 0, 0, 0⟩ }
            { X := 0, Y := 0, Z := 0, Vx := 0, Vy := 0, Vz := 0 }
            { X := 1, Y := 0, Theta := 0, Z := 10, V := 0, Vz := 0 }
            { Distance := 0, Bearing := 0, TangentVelocity := 1, NormalVelocity := 0 }
            (boxBound ⟨-0.1, -0.1, -1, 0⟩ ⟨0.1, 0.1, 1, 15⟩) (turningRateBound 1)) =
        false := by
  refine ⟨fun q => boxBound_project_contains _ _ ?_ ?_ ?_ ?_ q, ?_⟩
  · norm_num
  · norm_num
  · norm_num
  · norm_num
  · simp only [boxBound, OptimalControl, Bool.and_eq_false_imp, Bool.and_eq_true,
      decide_eq_true_eq, decide_eq_false_iff_not]
    intro _ h
    norm_num at h

/-- C7, amended: if `ProjectToSurface` returns only members of the tracker control bound
set, then the command returned by `OptimalControl` has the pitch and roll of a member of
that set, and it is itself a member whenever membership in the set depends on pitch and
roll only.  Its thrust is the value of the vertical PD law and its yaw rate is 0,
regardless of the bound. -/
theorem OptimalControl_feasible_pitch_roll (e : Externals α)
    (tracker_x : PositionVelocity α) (planner_x : PlanarDubins3D α)
    (value_gradient : PositionVelocityRelPlanarDubins3D α)
    (tracker_u_bound : ControlBound (QuadrotorControl α)) (planner_u_bound : ControlBound α)
    (hproj : ∀ q, tracker_u_bound.Contains (tracker_u_bound.ProjectToSurface q) = true) :
    (∃ u, tracker_u_bound.Contains u = true ∧
        u.pitch = (OptimalControl e tracker_x planner_x value_gradient tracker_u_bound
          planner_u_bound).pitch ∧
        u.roll = (OptimalControl e tracker_x planner_x value_gradient tracker_u_bound
          planner_u_bound).roll) ∧
      ((∀ u v : QuadrotorControl α, u.pitch = v.pitch → u.roll = v.roll →
          tracker_u_bound.Contains u = tracker_u_bound.Contains v) →
        tracker_u_bound.Contains (OptimalControl e tracker_x planner_x value_gradient
          tracker_u_bound planner_u_bound) = true) ∧
      (OptimalControl e tracker_x planner_x value_gradient tracker_u_bound
          planner_u_bound).thrust =
        e.G + 1.5 * (planner_x.Z - tracker_x.Z) + 1.0 * (planner_x.Vz - tracker_x.Vz) ∧
      (OptimalControl e tracker_x planner_x value_gradient tracker_u_bound
          planner_u_bound).yaw_rate = 0 := by
  refine ⟨⟨tracker_u_bound.ProjectToSurface (negative_grad e planner_x value_gradient),
    hproj _, rfl, rfl⟩, fun hcongr => ?_, ?_, ?_⟩
  · rw [hcongr
      (OptimalControl e tracker_x planner_x value_gradient tracker_u_bound planner_u_bound)
      (tracker_u_bound.ProjectToSurface (negative_grad e planner_x value_gradient)) rfl rfl]
    exact hproj _
  · simp only [OptimalControl]
  · simp only [OptimalControl, zero_literal]

/-- Witness of the amended C7 over the reals: for the sample bound `|pitch| ≤ 0.1`,
`|roll| ≤ 0.1`, whose projection returns only members, the command returned for the
tracker at height 0 and the planner at height 10 is a member of the bound, its thrust is
`9.81 + 1.5 * 10 = 24.81` and its yaw rate is 0. -/
theorem OptimalControl_feasible_pitch_roll_witness :
    (∀ q : QuadrotorControl ℝ,
        (pitchRollBound 0.1).Contains ((pitchRollBound 0.1).ProjectToSurface q) = true) ∧
      (pitchRollBound (0.1 : ℝ)).Contains
          (OptimalControl ⟨9.81, Real.cos, Real.sin, Real.tan, fun _ _ => ⟨1, 0, 0, 0⟩⟩
            ⟨0, 0, 0, 0, 0, 0⟩ ⟨1, 0, 0, 10, 0, 0⟩ ⟨0, 0, 1, 0⟩
            (pitchRollBound 0.1) (turningRateBound 1)) = true ∧
      (OptimalControl ⟨9.81, Real.cos, Real.sin, Real.tan, fun _ _ => ⟨1, 0, 0, 0⟩⟩
          ⟨0, 0, 0, 0, 0, 0⟩ ⟨1, 0, 0, 10, 0, 0⟩ ⟨0, 0, 1, 0⟩
          (pitchRollBound (0.1 : ℝ)) (turningRateBound 1)).thrust = 24.81 ∧
      (OptimalControl ⟨9.81, Real.cos, Real.sin, Real.tan, fun _ _ => ⟨1, 0, 0, 0⟩⟩
          ⟨0, 0, 0, 0, 0, 0⟩ ⟨1, 0, 0, 10, 0, 0⟩ ⟨0, 0, 1, 0⟩
          (pitchRollBound (0.1 : ℝ)) (turningRateBound 1)).yaw_rate = 0 := by
  have h := OptimalControl_feasible_pitch_roll
    ⟨9.81, Real.cos, Real.sin, Real.tan, fun _ _ => ⟨1, 0, 0, 0⟩⟩
    ⟨0, 0, 0, 0, 0, 0⟩ ⟨1, 0, 0, 10, 0, 0⟩ ⟨0, 0, 1, 0⟩
    (pitchRollBound (0.1 : ℝ)) (turningRateBound 1)
    (pitchRollBound_project_contains 0.1 (by norm_num))
  refine ⟨pitchRollBound_project_contains 0.1 (by norm_num),
    h.2.1 (pitchRollBound_contains_congr 0.1), ?_, h.2.2.2⟩
  rw [h.2.2.1]
  norm_num

/-- C8: for every input, the pitch and roll of the command returned by `OptimalControl`
are exactly the pitch and roll returned by `ProjectToSurface` on the computed direction;
hence, for any gradient, if the pitch and roll of the projection lie within a pitch/roll
envelope, so do those of the returned command. -/
theorem OptimalControl_pitch_roll (e : Externals α) (tracker_x : PositionVelocity α)
    (planner_x : PlanarDubins3D α) (value_gradient : PositionVelocityRelPlanarDubins3D α)
    (tracker_u_bound : ControlBound (QuadrotorControl α))
    (planner_u_bound : ControlBound α) :
    (OptimalControl e tracker_x planner_x value_gradient tracker_u_bound
          planner_u_bound).pitch =
        (tracker_u_bound.ProjectToSurface (negative_grad e planner_x value_gradient)).pitch ∧
      (OptimalControl e tracker_x planner_x value_gradient tracker_u_bound
          planner_u_bound).roll =
        (tracker_u_bound.ProjectToSurface (negative_grad e planner_x value_gradient)).roll ∧
      ∀ envelope : α → α → Prop,
        envelope
            (tracker_u_bound.ProjectToSurface (negative_grad e planner_x value_gradient)).pitch
            (tracker_u_bound.ProjectToSurface (negative_grad e planner_x value_gradient)).roll →
          envelope
            (OptimalControl e tracker_x planner_x value_gradient tracker_u_bound
              planner_u_bound).pitch
            (OptimalControl e tracker_x planner_x value_gradient tracker_u_bound
              planner_u_bound).roll :=
  ⟨rfl, rfl, fun _ h => h⟩

/-- C9: decoupling of `OptimalControl` as a two-run statement.  Two calls that differ only
in the vertical states (tracker z, tracker vz, planner z, planner vz) return the same
pitch and roll, and two calls that differ only in the value gradient or in the tracker
bound (hence in its projection) return the same thrust. -/
theorem OptimalControl_decoupled (e : Externals α) (tracker_x : PositionVelocity α)
    (planner_x : PlanarDubins3D α) (value_gradient : PositionVelocityRelPlanarDubins3D α)
    (tracker_u_bound : ControlBound (QuadrotorControl α))
    (planner_u_bound : ControlBound α) :
    (∀ z vz pz pvz : α,
        (OptimalControl e { tracker_x with Z := z, Vz := vz }
            { planner_x with Z := pz, Vz := pvz } value_gradient tracker_u_bound
            planner_u_bound).pitch =
          (OptimalControl e tracker_x planner_x value_gradient tracker_u_bound
            planner_u_bound).pitch ∧
        (OptimalControl e { tracker_x with Z := z, Vz := vz }
            { planner_x with Z := pz, Vz := pvz } value_gradient tracker_u_bound
            planner_u_bound).roll =
          (OptimalControl e tracker_x planner_x value_gradient tracker_u_bound
            planner_u_bound).roll) ∧
      ∀ (value_gradient2 : PositionVelocityRelPlanarDubins3D α)
        (tracker_u_bound2 : ControlBound (QuadrotorControl α)),
        (OptimalControl e tracker_x planner_x value_gradient2 tracker_u_bound2
            planner_u_bound).thrust =
          (OptimalControl e tracker_x planner_x value_gradient tracker_u_bound
            planner_u_bound).thrust :=
  ⟨fun _ _ _ _ => ⟨rfl, rfl⟩, fun _ _ => rfl⟩

/-- C10, as stated, fails: over the reals, with `G = 9.81` and the tracker at height 0 with
vertical speed 0, the call with the planner at height 2 and vertical speed 0 and the call
with the planner at height 0 and vertical speed 3 differ only in the vertical state, the
tuples `(0, 0, 2, 0)` and `(0, 0, 0, 3)` are not equal, and both calls return the thrust
`9.81 + 3`. -/
theorem OptimalControl_vertical_counterexample :
    ((0 : ℝ), (0 : ℝ), (2 : ℝ), (0 : ℝ)) ≠ (0, 0, 0, 3) ∧
      (OptimalControl
          { G := 9.81, cos := Real.cos, sin := Real.sin, tan := Real.tan,
            relative := fun _ _ => ⟨1, 0, 0, 0⟩ }
          { X := 0, Y := 0, Z := 0, Vx := 0, Vy := 0, Vz := 0 }
          { X := 1, Y := 0, Theta := 0, Z := 2, V := 0, Vz := 0 }
          { Distance := 0, Bearing := 0, TangentVelocity := 1, NormalVelocity := 0 }
          (pitchRollBound 0.1) (turningRateBound 1)).thrust =
        (OptimalControl
          { G := 9.81, cos := Real.cos, sin := Real.sin, tan := Real.tan,
            relative := fun _ _ => ⟨1, 0, 0, 0⟩ }
          { X := 0, Y := 0, Z := 0, Vx := 0, Vy := 0, Vz := 0 }
          { X := 1, Y := 0, Theta := 0, Z := 0, V := 0, Vz := 3 }
          { Distance := 0, Bearing := 0, TangentVelocity := 1, NormalVelocity := 0 }
          (pitchRollBound 0.1) (turningRateBound 1)).thrust := by
  refine ⟨by simp, ?_⟩
  simp only [OptimalControl]
  norm_num

/-- C10, amended: for every pair of calls to `OptimalControl` that differ only in the
vertical state of the tracker or of the planner, pitch and roll are equal, and the
returned thrusts differ exactly when the values of
`1.5 * (planner z - tracker z) + 1.0 * (planner vz - tracker vz)` differ; in particular
they differ whenever exactly one of the four vertical components differs. -/
theorem OptimalControl_vertical_change (e : Externals α) (tracker_x : PositionVelocity α)
    (planner_x : PlanarDubins3D α) (value_gradient : PositionVelocityRelPlanarDubins3D α)
    (tracker_u_bound : ControlBound (QuadrotorControl α))
    (planner_u_bound : ControlBound α) (z vz pz pvz : α) :
    (OptimalControl e { tracker_x with Z := z, Vz := vz }
          { planner_x with Z := pz, Vz := pvz } value_gradient tracker_u_bound
          planner_u_bound).pitch =
        (OptimalControl e tracker_x planner_x value_gradient tracker_u_bound
          planner_u_bound).pitch ∧
      (OptimalControl e { tracker_x with Z := z, Vz := vz }
          { planner_x with Z := pz, Vz := pvz } value_gradient tracker_u_bound
          planner_u_bound).roll =
        (OptimalControl e tracker_x planner_x value_gradient tracker_u_bound
          planner_u_bound).roll ∧
      ((OptimalControl e { tracker_x with Z := z, Vz := vz }
            { planner_x with Z := pz, Vz := pvz } value_gradient tracker_u_bound
            planner_u_bound).thrust ≠
          (OptimalControl e tracker_x planner_x value_gradient tracker_u_bound
            planner_u_bound).thrust ↔
        1.5 * (pz - z) + 1.0 * (pvz - vz) ≠
          1.5 * (planner_x.Z - tracker_x.Z) + 1.0 * (planner_x.Vz - tracker_x.Vz)) ∧
      (z ≠ tracker_x.Z →
        (OptimalControl e { tracker_x with Z := z } planner_x value_gradient tracker_u_bound
            planner_u_bound).thrust ≠
          (OptimalControl e tracker_x planner_x value_gradient tracker_u_bound
            planner_u_bound).thrust) ∧
      (vz ≠ tracker_x.Vz →
        (OptimalControl e { tracker_x with Vz := vz } planner_x value_gradient tracker_u_bound
            planner_u_bound).thrust ≠
          (OptimalControl e tracker_x planner_x value_gradient tracker_u_bound
            planner_u_bound).thrust) ∧
      (pz ≠ planner_x.Z →
        (OptimalControl e tracker_x { planner_x with Z := pz } value_gradient tracker_u_bound
            planner_u_bound).thrust ≠
          (OptimalControl e tracker_x planner_x value_gradient tracker_u_bound
            planner_u_bound).thrust) ∧
      (pvz ≠ planner_x.Vz →
        (OptimalControl e tracker_x { planner_x with Vz := pvz } value_gradient
            tracker_u_bound planner_u_bound).thrust ≠
          (OptimalControl e tracker_x planner_x value_gradient tracker_u_bound
            planner_u_bound).thrust) := by
  refine ⟨rfl, rfl, ?_, ?_, ?_, ?_, ?_⟩
  · simp only [OptimalControl, ne_eq]
    constructor <;> intro h heq <;> apply h <;> linarith
  · intro h heq
    simp only [OptimalControl] at heq
    exact h (by linarith)
  · intro h heq
    simp only [OptimalControl] at heq
    exact h (by linarith)
  · intro h heq
    simp only [OptimalControl] at heq
    exact h (by linarith)
  · intro h heq
    simp only [OptimalControl] at heq
    exact h (by linarith)

/-- C11: the velocity-rate outputs of `Evaluate` never use the net tangential velocity.  Two
calls to `Evaluate` with equal tracker control, planner heading, planner turning rate and
equal relative tangential and normal velocities return the same tangential-velocity rate
and the same normal-velocity rate, whatever the two planner forward speeds are. -/
theorem Evaluate_velocity_dot_forward_speed (e : Externals α)
    (tracker_x tracker_x2 : PositionVelocity α) (tracker_u : QuadrotorControl α)
    (planner_x planner_x2 : PlanarDubins3D α) (planner_u : α)
    (htheta : planner_x2.Theta = planner_x.Theta)
    (hvt : (e.relative tracker_x2 planner_x2).TangentVelocity =
      (e.relative tracker_x planner_x).TangentVelocity)
    (hvn : (e.relative tracker_x2 planner_x2).NormalVelocity =
      (e.relative tracker_x planner_x).NormalVelocity) :
    (Evaluate e tracker_x2 tracker_u planner_x2 planner_u).TangentVelocity =
        (Evaluate e tracker_x tracker_u planner_x planner_u).TangentVelocity ∧
      (Evaluate e tracker_x2 tracker_u planner_x2 planner_u).NormalVelocity =
        (Evaluate e tracker_x tracker_u planner_x planner_u).NormalVelocity := by
  simp only [Evaluate, htheta, hvt, hvn, and_self]

/-- Witness of C11 over the reals, with the relative state built from the two absolute
states: the planner forward speeds 1 and 5 differ, everything else is equal, and both
velocity rates agree. -/
theorem Evaluate_velocity_dot_forward_speed_witness :
    (5 : ℝ) ≠ 1 ∧
      (Evaluate
          { G := 9.81, cos := Real.cos, sin := Real.sin, tan := Real.tan,
            relative := PositionVelocityRelPlanarDubins3D.ofStates Real.sqrt
              (fun y x => Complex.arg ⟨x, y⟩) Real.cos Real.sin }
          { X := 2, Y := 0, Z := 0, Vx := 3, Vy := 1, Vz := 0 }
          { pitch := 0.1, roll := 0.2, yaw_rate := 0, thrust := 9.81 }
          { X := 0, Y := 0, Theta := 0, Z := 0, V := 5, Vz := 0 } (1 / 2)).TangentVelocity =
        (Evaluate
          { G := 9.81, cos := Real.cos, sin := Real.sin, tan := Real.tan,
            relative := PositionVelocityRelPlanarDubins3D.ofStates Real.sqrt
              (fun y x => Complex.arg ⟨x, y⟩) Real.cos Real.sin }
          { X := 2, Y := 0, Z := 0, Vx := 3, Vy := 1, Vz := 0 }
          { pitch := 0.1, roll := 0.2, yaw_rate := 0, thrust := 9.81 }
          { X := 0, Y := 0, Theta := 0, Z := 0, V := 1, Vz := 0 } (1 / 2)).TangentVelocity ∧
      (Evaluate
          { G := 9.81, cos := Real.cos, sin := Real.sin, tan := Real.tan,
            relative := PositionVelocityRelPlanarDubins3D.ofStates Real.sqrt
              (fun y x => Complex.arg ⟨x, y⟩) Real.cos Real.sin }
          { X := 2, Y := 0, Z := 0, Vx := 3, Vy := 1, Vz := 0 }
          { pitch := 0.1, roll := 0.2, yaw_rate := 0, thrust := 9.81 }
          { X := 0, Y := 0, Theta := 0, Z := 0, V := 5, Vz := 0 } (1 / 2)).NormalVelocity =
        (Evaluate
          { G := 9.81, cos := Real.cos, sin := Real.sin, tan := Real.tan,
            relative := PositionVelocityRelPlanarDubins3D.ofStates Real.sqrt
              (fun y x => Complex.arg ⟨x, y⟩) Real.cos Real.sin }
          { X := 2, Y := 0, Z := 0, Vx := 3, Vy := 1, Vz := 0 }
          { pitch := 0.1, roll := 0.2, yaw_rate := 0, thrust := 9.81 }
          { X := 0, Y := 0, Theta := 0, Z := 0, V := 1, Vz := 0 } (1 / 2)).NormalVelocity :=
  ⟨by norm_num, Evaluate_velocity_dot_forward_speed _ _ _ _ _ _ _ rfl rfl rfl⟩

/-- C12: frame consistency.  For every input with planner turning rate 0, planner forward
speed 0 and relative distance `d > 0`, `Evaluate` returns the distance rate
`vt * cos b + vn * sin b` and the bearing rate `(-vt * sin b + vn * cos b) / d`, with no
turning-rate offset. -/
theorem Evaluate_frame_consistency (e : Externals α) (tracker_x : PositionVelocity α)
    (tracker_u : QuadrotorControl α) (planner_x : PlanarDubins3D α)
    (hV : planner_x.V = 0) (_hd : 0 < (e.relative tracker_x planner_x).Distance) :
    (Evaluate e tracker_x tracker_u planner_x 0).Distance =
        (e.relative tracker_x planner_x).TangentVelocity *
            e.cos (e.relative tracker_x planner_x).Bearing +
          (e.relative tracker_x planner_x).NormalVelocity *
            e.sin (e.relative tracker_x planner_x).Bearing ∧
      (Evaluate e tracker_x tracker_u planner_x 0).Bearing =
        (-(e.relative tracker_x planner_x).TangentVelocity *
            e.sin (e.relative tracker_x planner_x).Bearing +
          (e.relative tracker_x planner_x).NormalVelocity *
            e.cos (e.relative tracker_x planner_x).Bearing) /
          (e.relative tracker_x planner_x).Distance := by
  simp only [Evaluate, hV, sub_zero, neg_zero, zero_add, and_self]

/-- Witness of C12 over the reals with the real trigonometric functions: the tracker is two
units ahead of a planner at rest (distance 2, bearing 0) and moves with velocity
`(3, 1)`; the distance rate is `3 * cos 0 + 1 * sin 0 = 3` and the bearing rate is
`(-3 * sin 0 + 1 * cos 0) / 2 = 1 / 2`. -/
theorem Evaluate_frame_consistency_witness :
    (Evaluate
          { G := 9.81, cos := Real.cos, sin := Real.sin, tan := Real.tan,
            relative := fun _ _ => ⟨2, 0, 3, 1⟩ }
          { X := 2, Y := 0, Z := 0, Vx := 3, Vy := 1, Vz := 0 }
          { pitch := 0, roll := 0, yaw_rate := 0, thrust := 9.81 }
          { X := 0, Y := 0, Theta := 0, Z := 0, V := 0, Vz := 0 } 0).Distance = 3 ∧
      (Evaluate
          { G := 9.81, cos := Real.cos, sin := Real.sin, tan := Real.tan,
            relative := fun _ _ => ⟨2, 0, 3, 1⟩ }
          { X := 2, Y := 0, Z := 0, Vx := 3, Vy := 1, Vz := 0 }
          { pitch := 0, roll := 0, yaw_rate := 0, thrust := 9.81 }
          { X := 0, Y := 0, Theta := 0, Z := 0, V := 0, Vz := 0 } 0).Bearing = 1 / 2 := by
  have h := Evaluate_frame_consistency
    { G := 9.81, cos := Real.cos, sin := Real.sin, tan := Real.tan,
      relative := fun _ _ => ⟨2, 0, 3, 1⟩ }
    { X := 2, Y := 0, Z := 0, Vx := 3, Vy := 1, Vz := 0 }
    { pitch := 0, roll := 0, yaw_rate := 0, thrust := 9.81 }
    { X := 0, Y := 0, Theta := 0, Z := 0, V := 0, Vz := 0 } rfl (by norm_num)
  rw [h.1, h.2]
  norm_num

/-- C13: sign convention, over the reals with the real trigonometric functions.  For every
input with planner heading 0 and planner turning rate 0, the tangential-velocity rate
returned by `Evaluate` equals `accel_x = G * tan pitch` and the normal-velocity rate
equals `accel_y = -G * tan roll`; in particular, with `G > 0` and `roll = 0`, every pitch
in `(0, π / 2)` gives a strictly positive tangential-velocity rate and a zero
normal-velocity rate. -/
theorem Evaluate_sign_convention (G : ℝ)
    (relative : PositionVelocity ℝ → PlanarDubins3D ℝ → PositionVelocityRelPlanarDubins3D ℝ)
    (tracker_x : PositionVelocity ℝ) (tracker_u : QuadrotorControl ℝ)
    (planner_x : PlanarDubins3D ℝ) (htheta : planner_x.Theta = 0) :
    (Evaluate ⟨G, Real.cos, Real.sin, Real.tan, relative⟩ tracker_x tracker_u planner_x
          0).TangentVelocity = G * Real.tan tracker_u.pitch ∧
      (Evaluate ⟨G, Real.cos, Real.sin, Real.tan, relative⟩ tracker_x tracker_u planner_x
          0).NormalVelocity = -G * Real.tan tracker_u.roll ∧
      (0 < G → tracker_u.roll = 0 → 0 < tracker_u.pitch → tracker_u.pitch < Real.pi / 2 →
        0 < (Evaluate ⟨G, Real.cos, Real.sin, Real.tan, relative⟩ tracker_x tracker_u
            planner_x 0).TangentVelocity ∧
          (Evaluate ⟨G, Real.cos, Real.sin, Real.tan, relative⟩ tracker_x tracker_u
            planner_x 0).NormalVelocity = 0) := by
  have ht : (Evaluate ⟨G, Real.cos, Real.sin, Real.tan, relative⟩ tracker_x tracker_u
      planner_x 0).TangentVelocity = G * Real.tan tracker_u.pitch := by
    simp [Evaluate, htheta]
  have hn : (Evaluate ⟨G, Real.cos, Real.sin, Real.tan, relative⟩ tracker_x tracker_u
      planner_x 0).NormalVelocity = -G * Real.tan tracker_u.roll := by
    simp [Evaluate, htheta]
  refine ⟨ht, hn, fun hG hroll hpos hlt => ?_⟩
  rw [ht, hn, hroll, Real.tan_zero, mul_zero]
  exact ⟨mul_pos hG (Real.tan_pos_of_pos_of_lt_pi_div_two hpos hlt), rfl⟩

/-- Witness of C13: with `G = 9.81`, planner heading 0, roll 0 and pitch `0.1`, which lies
in `(0, π / 2)`, the tangential-velocity rate is strictly positive and the normal-velocity
rate is 0. -/
theorem Evaluate_sign_convention_witness :
    0 < (Evaluate
          { G := 9.81, cos := Real.cos, sin := Real.sin, tan := Real.tan,
            relative := fun _ _ => ⟨2, 0, 3, 1⟩ }
          { X := 2, Y := 0, Z := 0, Vx := 3, Vy := 1, Vz := 0 }
          { pitch := 0.1, roll := 0, yaw_rate := 0, thrust := 9.81 }
          { X := 0, Y := 0, Theta := 0, Z := 0, V := 1, Vz := 0 } 0).TangentVelocity ∧
      (Evaluate
          { G := 9.81, cos := Real.cos, sin := Real.sin, tan := Real.tan,
            relative := fun _ _ => ⟨2, 0, 3, 1⟩ }
          { X := 2, Y := 0, Z := 0, Vx := 3, Vy := 1, Vz := 0 }
          { pitch := 0.1, roll := 0, yaw_rate := 0, thrust := 9.81 }
          { X := 0, Y := 0, Theta := 0, Z := 0, V := 1, Vz := 0 } 0).NormalVelocity = 0 :=
  (Evaluate_sign_convention 9.81 (fun _ _ => ⟨2, 0, 3, 1⟩)
    { X := 2, Y := 0, Z := 0, Vx := 3, Vy := 1, Vz := 0 }
    { pitch := 0.1, roll := 0, yaw_rate := 0, thrust := 9.81 }
    { X := 0, Y := 0, Theta := 0, Z := 0, V := 1, Vz := 0 } rfl).2.2
    (by norm_num) rfl (by norm_num) (by
      have := Real.pi_gt_three
      show (0.1 : ℝ) < Real.pi / 2
      norm_num
      linarith)

/-- C14: worked example, over the reals with the real trigonometric functions.  For the
tracker `(x = 0, y = 0, vx = 1, vy = 0, z = 0, vz = 0)`, the planner
`(x = 1, y = 0, theta = 0, v = 0, vz = 0)` at any height, turning rate 0 and zero tracker
control, whose relative state is distance 1, bearing `π`, tangential velocity 1 and
normal velocity 0, `Evaluate` returns distance rate `-1`, bearing rate 0,
tangential-velocity rate 0 and normal-velocity rate 0. -/
theorem Evaluate_worked_example (G z : ℝ)
    (relative : PositionVelocity ℝ → PlanarDubins3D ℝ → PositionVelocityRelPlanarDubins3D ℝ)
    (hrel : relative { X := 0, Y := 0, Z := 0, Vx := 1, Vy := 0, Vz := 0 }
        { X := 1, Y := 0, Theta := 0, Z := z, V := 0, Vz := 0 } =
      { Distance := 1, Bearing := Real.pi, TangentVelocity := 1, NormalVelocity := 0 }) :
    Evaluate ⟨G, Real.cos, Real.sin, Real.tan, relative⟩
        { X := 0, Y := 0, Z := 0, Vx := 1, Vy := 0, Vz := 0 }
        { pitch := 0, roll := 0, yaw_rate := 0, thrust := 0 }
        { X := 1, Y := 0, Theta := 0, Z := z, V := 0, Vz := 0 } 0 =
      { Distance := -1, Bearing := 0, TangentVelocity := 0, NormalVelocity := 0 } := by
  simp [Evaluate, hrel]

/-- Witness of C14: with `G = 9.81`, the planner at height 0 and the relative state built
from the two absolute states by the modelled constructor, which is indeed
`(1, π, 1, 0)`, `Evaluate` returns `(-1, 0, 0, 0)`. -/
theorem Evaluate_worked_example_witness :
    Evaluate
        { G := 9.81, cos := Real.cos, sin := Real.sin, tan := Real.tan,
          relative := PositionVelocityRelPlanarDubins3D.ofStates Real.sqrt
            (fun y x => Complex.arg ⟨x, y⟩) Real.cos Real.sin }
        { X := 0, Y := 0, Z := 0, Vx := 1, Vy := 0, Vz := 0 }
        { pitch := 0, roll := 0, yaw_rate := 0, thrust := 0 }
        { X := 1, Y := 0, Theta := 0, Z := 0, V := 0, Vz := 0 } 0 =
      { Distance := -1, Bearing := 0, TangentVelocity := 0, NormalVelocity := 0 } :=
  Evaluate_worked_example 9.81 0 _ (ofStates_worked_example 0)

/-- C15, as stated, fails: with the tracker straight ahead of the planner and moving along
the planner heading (bearing 0, tangential velocity 1, normal velocity 0), planner forward
speed 0 and turning rate `1 / 2`, the transverse velocity `-(vt - V) * sin b + vn * cos b`
is `-(1 - 0) * sin 0 + 0 * cos 0 = 0`, so the bearing rate returned by `Evaluate` is
`-(1 / 2)` for every distance and its absolute value does not tend to infinity as the
distance tends to 0 from above. -/
theorem Evaluate_degeneracy_counterexample :
    ¬ Filter.Tendsto
      (fun d : ℝ =>
        |(Evaluate
          { G := 9.81, cos := Real.cos, sin := Real.sin, tan := Real.tan,
            relative := fun _ _ =>
              { Distance := d, Bearing := 0, TangentVelocity := 1, NormalVelocity := 0 } }
          { X := 1, Y := 0, Z := 0, Vx := 1, Vy := 0, Vz := 0 }
          { pitch := 0, roll := 0, yaw_rate := 0, thrust := 0 }
          { X := 0, Y := 0, Theta := 0, Z := 0, V := 0, Vz := 0 } (1 / 2)).Bearing|)
      (nhdsWithin 0 (Set.Ioi 0)) Filter.atTop := by
  have hconst : (fun d : ℝ =>
        |(Evaluate
          { G := 9.81, cos := Real.cos, sin := Real.sin, tan := Real.tan,
            relative := fun _ _ =>
              { Distance := d, Bearing := 0, TangentVelocity := 1, NormalVelocity := 0 } }
          { X := 1, Y := 0, Z := 0, Vx := 1, Vy := 0, Vz := 0 }
          { pitch := 0, roll := 0, yaw_rate := 0, thrust := 0 }
          { X := 0, Y := 0, Theta := 0, Z := 0, V := 0, Vz := 0 } (1 / 2)).Bearing|) =
      fun _ => (1 / 2 : ℝ) := by
    funext d
    simp [Evaluate]
  rw [hconst]
  exact Filter.not_tendsto_const_atTop (1 / 2) _

/-- C15, amended: for every fixed bearing, tangential velocity, normal velocity, planner
forward speed and planner turning rate for which the transverse velocity
`-(vt - V) * sin b + vn * cos b` is not 0, the absolute value of the bearing rate
returned by `Evaluate` tends to infinity as the relative distance `d` tends to 0 from
above, while the distance rate is `(vt - V) * cos b + vn * sin b` for every `d`, hence
does not depend on `d`. -/
theorem Evaluate_degeneracy (e : Externals ℝ) (tracker_x : PositionVelocity ℝ)
    (tracker_u : QuadrotorControl ℝ) (planner_x : PlanarDubins3D ℝ) (planner_u b vt vn : ℝ)
    (hN : -(vt - planner_x.V) * e.sin b + vn * e.cos b ≠ 0) :
    Filter.Tendsto
        (fun d : ℝ =>
          |(Evaluate
            { e with
              relative := fun _ _ =>
                { Distance := d, Bearing := b, TangentVelocity := vt, NormalVelocity := vn } }
            tracker_x tracker_u planner_x planner_u).Bearing|)
        (nhdsWithin 0 (Set.Ioi 0)) Filter.atTop ∧
      ∀ d : ℝ,
        (Evaluate
            { e with
              relative := fun _ _ =>
                { Distance := d, Bearing := b, TangentVelocity := vt, NormalVelocity := vn } }
            tracker_x tracker_u planner_x planner_u).Distance =
          (vt - planner_x.V) * e.cos b + vn * e.sin b := by
  refine ⟨?_, fun d => by simp only [Evaluate]⟩
  have hform : (fun d : ℝ =>
        |(Evaluate
          { e with
            relative := fun _ _ =>
              { Distance := d, Bearing := b, TangentVelocity := vt, NormalVelocity := vn } }
          tracker_x tracker_u planner_x planner_u).Bearing|) =
      abs ∘ fun d : ℝ =>
        -planner_u + (-(vt - planner_x.V) * e.sin b + vn * e.cos b) * d⁻¹ := by
    funext d
    simp only [Evaluate, Function.comp_apply, div_eq_mul_inv]
  rw [hform]
  rcases lt_or_gt_of_ne hN with hneg | hpos
  · exact Filter.tendsto_abs_atBot_atTop.comp
      (Filter.tendsto_atBot_add_const_left _ _
        (tendsto_inv_zero_atTop.const_mul_atTop_of_neg hneg))
  · exact Filter.tendsto_abs_atTop_atTop.comp
      (Filter.tendsto_atTop_add_const_left _ _
        (tendsto_inv_zero_atTop.const_mul_atTop hpos))

/-- Witness of the amended C15 over the reals with the real trigonometric functions: at
bearing 0, tangential velocity 0, normal velocity 1, with the planner at rest and turning
with rate `1 / 2`, the transverse velocity is `1` and the absolute value of the bearing
rate tends to infinity as the distance tends to 0 from above. -/
theorem Evaluate_degeneracy_witness :
    Filter.Tendsto
      (fun d : ℝ =>
        |(Evaluate
          { G := 9.81, cos := Real.cos, sin := Real.sin, tan := Real.tan,
            relative := fun _ _ =>
              { Distance := d, Bearing := 0, TangentVelocity := 0, NormalVelocity := 1 } }
          { X := 0, Y := 0, Z := 0, Vx := 0, Vy := 1, Vz := 0 }
          { pitch := 0, roll := 0, yaw_rate := 0, thrust := 0 }
          { X := 0, Y := 0, Theta := 0, Z := 0, V := 0, Vz := 0 } (1 / 2)).Bearing|)
      (nhdsWithin 0 (Set.Ioi 0)) Filter.atTop :=
  (Evaluate_degeneracy
    { G := 9.81, cos := Real.cos, sin := Real.sin, tan := Real.tan,
      relative := fun _ _ => ⟨1, 0, 0, 1⟩ }
    { X := 0, Y := 0, Z := 0, Vx := 0, Vy := 1, Vz := 0 }
    { pitch := 0, roll := 0, yaw_rate := 0, thrust := 0 }
    { X := 0, Y := 0, Theta := 0, Z := 0, V := 0, Vz := 0 } (1 / 2) 0 0 1
    (by simp)).1

/-- C16: the command returned by `OptimalControl` does not depend on the planner control
bound, on the distance and bearing components of the value gradient, on the horizontal
position and velocity of the tracker, or on the horizontal position and forward speed of
the planner: two calls that differ only in those inputs return the same command. -/
theorem OptimalControl_unused_inputs (e : Externals α) (tracker_x : PositionVelocity α)
    (planner_x : PlanarDubins3D α) (value_gradient : PositionVelocityRelPlanarDubins3D α)
    (tracker_u_bound : ControlBound (QuadrotorControl α))
    (planner_u_bound planner_u_bound2 : ControlBound α)
    (x y vx vy px py pv gd gb : α) :
    OptimalControl e { tracker_x with X := x, Y := y, Vx := vx, Vy := vy }
        { planner_x with X := px, Y := py, V := pv }
        { value_gradient with Distance := gd, Bearing := gb } tracker_u_bound
        planner_u_bound2 =
      OptimalControl e tracker_x planner_x value_gradient tracker_u_bound planner_u_bound :=
  rfl

/-- C17: `Evaluate` and `OptimalControl` share one kinematic model.  With `(tdot, ndot)` the
velocity rates returned by `Evaluate` and `(dp, dr)` the pitch and roll of the direction
that `OptimalControl` passes to `ProjectToSurface`,
`gt * tdot + gn * ndot = -G * (dp * tan pitch + dr * tan roll) + w * (gt * vn - gn * vt)`:
the direction is the negated coefficient of `tan pitch`, `tan roll` in the
gradient-weighted relative dynamics. -/
theorem Evaluate_OptimalControl_shared_model (e : Externals α)
    (tracker_x : PositionVelocity α) (tracker_u : QuadrotorControl α)
    (planner_x : PlanarDubins3D α) (planner_u : α)
    (value_gradient : PositionVelocityRelPlanarDubins3D α) :
    (∀ (tracker_x2 : PositionVelocity α) (tracker_u_bound : ControlBound (QuadrotorControl α))
        (planner_u_bound : ControlBound α),
        OptimalControl e tracker_x2 planner_x value_gradient tracker_u_bound
            planner_u_bound =
          { tracker_u_bound.ProjectToSurface (negative_grad e planner_x value_gradient) with
            yaw_rate := 0.0
            thrust := e.G + 1.5 * (planner_x.Z - tracker_x2.Z) +
              1.0 * (planner_x.Vz - tracker_x2.Vz) }) ∧
      value_gradient.TangentVelocity *
            (Evaluate e tracker_x tracker_u planner_x planner_u).TangentVelocity +
          value_gradient.NormalVelocity *
            (Evaluate e tracker_x tracker_u planner_x planner_u).NormalVelocity =
        -e.G * ((negative_grad e planner_x value_gradient).pitch * e.tan tracker_u.pitch +
            (negative_grad e planner_x value_gradient).roll * e.tan tracker_u.roll) +
          planner_u *
            (value_gradient.TangentVelocity * (e.relative tracker_x planner_x).NormalVelocity -
              value_gradient.NormalVelocity *
                (e.relative tracker_x planner_x).TangentVelocity) := by
  refine ⟨fun _ _ _ => rfl, ?_⟩
  simp only [Evaluate, negative_grad]
  ring

/-- C19: the frame-rotation terms of `Evaluate` do no work on the horizontal speed, over
the reals with the real trigonometric functions.  For every input,
`vt * tdot + vn * ndot` does not depend on the planner turning rate, and with zero
tracker pitch and roll it is 0 for every planner turning rate and heading, where
`(tdot, ndot)` are the returned tangential- and normal-velocity rates. -/
theorem Evaluate_rotation_no_work (G : ℝ)
    (relative : PositionVelocity ℝ → PlanarDubins3D ℝ → PositionVelocityRelPlanarDubins3D ℝ)
    (tracker_x : PositionVelocity ℝ) (tracker_u : QuadrotorControl ℝ)
    (planner_x : PlanarDubins3D ℝ) :
    (∀ planner_u planner_u2 : ℝ,
        (relative tracker_x planner_x).TangentVelocity *
              (Evaluate ⟨G, Real.cos, Real.sin, Real.tan, relative⟩ tracker_x tracker_u
                planner_x planner_u).TangentVelocity +
            (relative tracker_x planner_x).NormalVelocity *
              (Evaluate ⟨G, Real.cos, Real.sin, Real.tan, relative⟩ tracker_x tracker_u
                planner_x planner_u).NormalVelocity =
          (relative tracker_x planner_x).TangentVelocity *
              (Evaluate ⟨G, Real.cos, Real.sin, Real.tan, relative⟩ tracker_x tracker_u
                planner_x planner_u2).TangentVelocity +
            (relative tracker_x planner_x).NormalVelocity *
              (Evaluate ⟨G, Real.cos, Real.sin, Real.tan, relative⟩ tracker_x tracker_u
                planner_x planner_u2).NormalVelocity) ∧
      ∀ planner_u : ℝ,
        (relative tracker_x planner_x).TangentVelocity *
              (Evaluate ⟨G, Real.cos, Real.sin, Real.tan, relative⟩ tracker_x
                { tracker_u with pitch := 0, roll := 0 } planner_x
                planner_u).TangentVelocity +
            (relative tracker_x planner_x).NormalVelocity *
              (Evaluate ⟨G, Real.cos, Real.sin, Real.tan, relative⟩ tracker_x
                { tracker_u with pitch := 0, roll := 0 } planner_x
                planner_u).NormalVelocity = 0 := by
  constructor
  · intro planner_u planner_u2
    simp only [Evaluate]
    ring
  · intro planner_u
    simp only [Evaluate, Real.tan_zero]
    ring

/-- C20: the position rates of `Evaluate` are a norm-preserving radial/transverse
decomposition of the net relative velocity, over the reals with the real trigonometric
functions.  For every input with relative distance `d` different from 0,
`ddot ^ 2 + (d * (bdot + w)) ^ 2 = (vt - V) ^ 2 + vn ^ 2`, where `ddot` and `bdot` are the
returned distance rate and bearing rate, `w` the planner turning rate and `V` the planner
forward speed. -/
theorem Evaluate_position_rates_norm (G : ℝ)
    (relative : PositionVelocity ℝ → PlanarDubins3D ℝ → PositionVelocityRelPlanarDubins3D ℝ)
    (tracker_x : PositionVelocity ℝ) (tracker_u : QuadrotorControl ℝ)
    (planner_x : PlanarDubins3D ℝ) (planner_u : ℝ)
    (hd : (relative tracker_x planner_x).Distance ≠ 0) :
    (Evaluate ⟨G, Real.cos, Real.sin, Real.tan, relative⟩ tracker_x tracker_u planner_x
            planner_u).Distance ^ 2 +
        ((relative tracker_x planner_x).Distance *
            ((Evaluate ⟨G, Real.cos, Real.sin, Real.tan, relative⟩ tracker_x tracker_u
              planner_x planner_u).Bearing + planner_u)) ^ 2 =
      ((relative tracker_x planner_x).TangentVelocity - planner_x.V) ^ 2 +
        (relative tracker_x planner_x).NormalVelocity ^ 2 := by
  have htrans : (relative tracker_x planner_x).Distance *
      ((Evaluate ⟨G, Real.cos, Real.sin, Real.tan, relative⟩ tracker_x tracker_u
        planner_x planner_u).Bearing + planner_u) =
      -((relative tracker_x planner_x).TangentVelocity - planner_x.V) *
          Real.sin (relative tracker_x planner_x).Bearing +
        (relative tracker_x planner_x).NormalVelocity *
          Real.cos (relative tracker_x planner_x).Bearing := by
    simp only [Evaluate]
    field_simp
  rw [htrans]
  simp only [Evaluate]
  linear_combination
    (((relative tracker_x planner_x).TangentVelocity - planner_x.V) ^ 2 +
      (relative tracker_x planner_x).NormalVelocity ^ 2) *
      Real.cos_sq_add_sin_sq (relative tracker_x planner_x).Bearing

/-- Witness of C20: with distance 2, bearing 0, tangential velocity 3, normal velocity 1,
planner forward speed 1 and turning rate `1 / 2`, the squared distance rate plus the
squared transverse rate is `(3 - 1) ^ 2 + 1 ^ 2`. -/
theorem Evaluate_position_rates_norm_witness :
    (Evaluate
            { G := 9.81, cos := Real.cos, sin := Real.sin, tan := Real.tan,
              relative := fun _ _ => ⟨2, 0, 3, 1⟩ }
            { X := 2, Y := 0, Z := 0, Vx := 3, Vy := 1, Vz := 0 }
            { pitch := 0, roll := 0, yaw_rate := 0, thrust := 9.81 }
            { X := 0, Y := 0, Theta := 0, Z := 0, V := 1, Vz := 0 } (1 / 2)).Distance ^ 2 +
        (2 *
            ((Evaluate
              { G := 9.81, cos := Real.cos, sin := Real.sin, tan := Real.tan,
                relative := fun _ _ => ⟨2, 0, 3, 1⟩ }
              { X := 2, Y := 0, Z := 0, Vx := 3, Vy := 1, Vz := 0 }
              { pitch := 0, roll := 0, yaw_rate := 0, thrust := 9.81 }
              { X := 0, Y := 0, Theta := 0, Z := 0, V := 1, Vz := 0 } (1 / 2)).Bearing +
              1 / 2)) ^ 2 =
      (3 - 1) ^ 2 + 1 ^ 2 :=
  Evaluate_position_rates_norm 9.81 (fun _ _ => ⟨2, 0, 3, 1⟩)
    { X := 2, Y := 0, Z := 0, Vx := 3, Vy := 1, Vz := 0 }
    { pitch := 0, roll := 0, yaw_rate := 0, thrust := 9.81 }
    { X := 0, Y := 0, Theta := 0, Z := 0, V := 1, Vz := 0 } (1 / 2) (by norm_num)

/-- C18: optimality against the gradient for a box bound, over the reals with the real
trigonometric functions.  Let `G > 0`, `0 < P < π / 2`, `0 < R < π / 2` and
`S = {(p, r) : |p| ≤ P, |r| ≤ R}`.  If `ProjectToSurface` returns a control whose
`(pitch, roll)` lies in `S` and maximises `dir.pitch * p + dir.roll * r` over `S`, then
for every tracker state, planner state, planner turning rate and gradient, the pitch and
roll returned by `OptimalControl` lie in `S` and minimise over all `(p, r)` in `S` the
quantity `gt * tdot + gn * ndot`, where `(tdot, ndot)` are the velocity rates that
`Evaluate` returns for a tracker control with pitch `p` and roll `r`. -/
theorem OptimalControl_optimal_box (G P R : ℝ) (hG : 0 < G) (_hP0 : 0 < P)
    (hP : P < Real.pi / 2) (_hR0 : 0 < R) (hR : R < Real.pi / 2)
    (relative : PositionVelocity ℝ → PlanarDubins3D ℝ → PositionVelocityRelPlanarDubins3D ℝ)
    (tracker_u_bound : ControlBound (QuadrotorControl ℝ)) (planner_u_bound : ControlBound ℝ)
    (hproj : ∀ dir : QuadrotorControl ℝ,
      |(tracker_u_bound.ProjectToSurface dir).pitch| ≤ P ∧
        |(tracker_u_bound.ProjectToSurface dir).roll| ≤ R ∧
        ∀ p r : ℝ, |p| ≤ P → |r| ≤ R →
          dir.pitch * p + dir.roll * r ≤
            dir.pitch * (tracker_u_bound.ProjectToSurface dir).pitch +
              dir.roll * (tracker_u_bound.ProjectToSurface dir).roll)
    (tracker_x : PositionVelocity ℝ) (planner_x : PlanarDubins3D ℝ) (planner_u : ℝ)
    (value_gradient : PositionVelocityRelPlanarDubins3D ℝ)
    (tracker_u : QuadrotorControl ℝ) (hp : |tracker_u.pitch| ≤ P)
    (hr : |tracker_u.roll| ≤ R) :
    |(OptimalControl ⟨G, Real.cos, Real.sin, Real.tan, relative⟩ tracker_x planner_x
          value_gradient tracker_u_bound planner_u_bound).pitch| ≤ P ∧
      |(OptimalControl ⟨G, Real.cos, Real.sin, Real.tan, relative⟩ tracker_x planner_x
          value_gradient tracker_u_bound planner_u_bound).roll| ≤ R ∧
      value_gradient.TangentVelocity *
            (Evaluate ⟨G, Real.cos, Real.sin, Real.tan, relative⟩ tracker_x
              (OptimalControl ⟨G, Real.cos, Real.sin, Real.tan, relative⟩ tracker_x
                planner_x value_gradient tracker_u_bound planner_u_bound)
              planner_x planner_u).TangentVelocity +
          value_gradient.NormalVelocity *
            (Evaluate ⟨G, Real.cos, Real.sin, Real.tan, relative⟩ tracker_x
              (OptimalControl ⟨G, Real.cos, Real.sin, Real.tan, relative⟩ tracker_x
                planner_x value_gradient tracker_u_bound planner_u_bound)
              planner_x planner_u).NormalVelocity ≤
        value_gradient.TangentVelocity *
            (Evaluate ⟨G, Real.cos, Real.sin, Real.tan, relative⟩ tracker_x tracker_u
              planner_x planner_u).TangentVelocity +
          value_gradient.NormalVelocity *
            (Evaluate ⟨G, Real.cos, Real.sin, Real.tan, relative⟩ tracker_x tracker_u
              planner_x planner_u).NormalVelocity := by
  obtain ⟨hin_p, hin_r, hmax⟩ :=
    hproj (negative_grad ⟨G, Real.cos, Real.sin, Real.tan, relative⟩ planner_x value_gradient)
  refine ⟨hin_p, hin_r, ?_⟩
  have h1 := tan_coordinate_maximal P
    (negative_grad ⟨G, Real.cos, Real.sin, Real.tan, relative⟩ planner_x value_gradient).pitch
    _ hP hin_p (fun p hp1 => by have := hmax p _ hp1 hin_r; linarith) tracker_u.pitch hp
  have h2 := tan_coordinate_maximal R
    (negative_grad ⟨G, Real.cos, Real.sin, Real.tan, relative⟩ planner_x value_gradient).roll
    _ hR hin_r (fun r hr1 => by have := hmax _ r hin_p hr1; linarith) tracker_u.roll hr
  have h3 := mul_le_mul_of_nonneg_left (add_le_add h1 h2) hG.le
  simp only [Evaluate, OptimalControl, negative_grad]
  simp only [negative_grad] at h3
  linarith

/-- Witness of C18: for `G = 9.81`, `P = R = 0.1` and the sample pitch/roll bound
`|pitch| ≤ 0.1`, `|roll| ≤ 0.1`, whose projection picks the corner that maximises the
alignment with the direction, the command returned for the gradient with tangential
component 1 and normal component `-2` does at least as well as the feasible tracker
control with pitch `0.05` and roll `-0.02`. -/
theorem OptimalControl_optimal_box_witness :
    (1 : ℝ) *
          (Evaluate
            { G := 9.81, cos := Real.cos, sin := Real.sin, tan := Real.tan,
              relative := fun _ _ => ⟨2, 0, 3, 1⟩ }
            { X := 2, Y := 0, Z := 0, Vx := 3, Vy := 1, Vz := 0 }
            (OptimalControl
              { G := 9.81, cos := Real.cos, sin := Real.sin, tan := Real.tan,
                relative := fun _ _ => ⟨2, 0, 3, 1⟩ }
              { X := 2, Y := 0, Z := 0, Vx := 3, Vy := 1, Vz := 0 }
              { X := 0, Y := 0, Theta := 0, Z := 0, V := 1, Vz := 0 }
              { Distance := 0, Bearing := 0, TangentVelocity := 1, NormalVelocity := -2 }
              (pitchRollBound 0.1) (turningRateBound 1))
            { X := 0, Y := 0, Theta := 0, Z := 0, V := 1, Vz := 0 }
            (1 / 2)).TangentVelocity +
        (-2) *
          (Evaluate
            { G := 9.81, cos := Real.cos, sin := Real.sin, tan := Real.tan,
              relative := fun _ _ => ⟨2, 0, 3, 1⟩ }
            { X := 2, Y := 0, Z := 0, Vx := 3, Vy := 1, Vz := 0 }
            (OptimalControl
              { G := 9.81, cos := Real.cos, sin := Real.sin, tan := Real.tan,
                relative := fun _ _ => ⟨2, 0, 3, 1⟩ }
              { X := 2, Y := 0, Z := 0, Vx := 3, Vy := 1, Vz := 0 }
              { X := 0, Y := 0, Theta := 0, Z := 0, V := 1, Vz := 0 }
              { Distance := 0, Bearing := 0, TangentVelocity := 1, NormalVelocity := -2 }
              (pitchRollBound 0.1) (turningRateBound 1))
            { X := 0, Y := 0, Theta := 0, Z := 0, V := 1, Vz := 0 }
            (1 / 2)).NormalVelocity ≤
      (1 : ℝ) *
          (Evaluate
            { G := 9.81, cos := Real.cos, sin := Real.sin, tan := Real.tan,
              relative := fun _ _ => ⟨2, 0, 3, 1⟩ }
            { X := 2, Y := 0, Z := 0, Vx := 3, Vy := 1, Vz := 0 }
            { pitch := 0.05, roll := -0.02, yaw_rate := 0, thrust := 9.81 }
            { X := 0, Y := 0, Theta := 0, Z := 0, V := 1, Vz := 0 }
            (1 / 2)).TangentVelocity +
        (-2) *
          (Evaluate
            { G := 9.81, cos := Real.cos, sin := Real.sin, tan := Real.tan,
              relative := fun _ _ => ⟨2, 0, 3, 1⟩ }
            { X := 2, Y := 0, Z := 0, Vx := 3, Vy := 1, Vz := 0 }
            { pitch := 0.05, roll := -0.02, yaw_rate := 0, thrust := 9.81 }
            { X := 0, Y := 0, Theta := 0, Z := 0, V := 1, Vz := 0 }
            (1 / 2)).NormalVelocity := by
  have hpi := Real.pi_gt_three
  exact (OptimalControl_optimal_box 9.81 0.1 0.1 (by norm_num) (by norm_num)
    (by norm_num; linarith) (by norm_num) (by norm_num; linarith)
    (fun _ _ => ⟨2, 0, 3, 1⟩) (pitchRollBound 0.1) (turningRateBound 1)
    (pitchRollBound_project_maximal 0.1 (by norm_num))
    { X := 2, Y := 0, Z := 0, Vx := 3, Vy := 1, Vz := 0 }
    { X := 0, Y := 0, Theta := 0, Z := 0, V := 1, Vz := 0 } (1 / 2)
    { Distance := 0, Bearing := 0, TangentVelocity := 1, NormalVelocity := -2 }
    { pitch := 0.05, roll := -0.02, yaw_rate := 0, thrust := 9.81 }
    (by norm_num [abs_le]) (by norm_num [abs_le])).2.2

end Claims

end fastrack
